import Mathlib

/-!
# TaskVerse: verification of the JSON-file persistence and validation core

Shallow embedding of the TaskVerse task-management backend
(`src/services/user_service.py`, `src/services/task_service.py`,
`src/schemas/user_schemas.py`, `src/schemas/task_schemas.py`,
`src/models/user.py`, `src/models/task.py`, `src/models/base.py`).

Modelling conventions:
- Python strings are embedded as `List Char` (`Str`); `str.strip()` is
  `pyStrip`, `str.lower()` is `pyLower` (ASCII case folding, as relevant
  to the repository's data).
- `datetime` values are embedded as `PyDateTime`: an instant (`ts : Int`,
  an abstract UTC timestamp) plus an awareness flag. `t.replace(tzinfo=utc)`
  on a naive value keeps `ts` and sets the flag.
- UUIDs are embedded as `Nat` (the generated ids are opaque strings in the
  code; only equality is used).
- The storage file's observable states are `FileState`: absent, present but
  not parseable as JSON, or parsed into a document. Fallible Python code
  (raising exceptions) is embedded with `Except`.
-/

set_option autoImplicit false
set_option linter.unreachableTactic false
set_option linter.unusedTactic false
set_option linter.unnecessarySeqFocus false

abbrev Str := List Char

/-- Python `str.strip()` whitespace class (ASCII part): space, tab, newline,
carriage return, vertical tab, form feed. -/
def isPySpace (c : Char) : Bool :=
  c = ' ' || c = '\t' || c = '\n' || c = '\r' || c = '\x0b' || c = '\x0c'

/-- Python `str.strip()`: drop leading and trailing whitespace. -/
def pyStrip (s : Str) : Str :=
  ((s.dropWhile isPySpace).reverse.dropWhile isPySpace).reverse

/-- ASCII lower-casing of one character, as Python `str.lower()` acts on the
ASCII range. -/
def pyLowerChar (c : Char) : Char :=
  if 65 ≤ c.toNat ∧ c.toNat ≤ 90 then Char.ofNat (c.toNat + 32) else c

/-- Python `str.lower()` (ASCII case folding). -/
def pyLower (s : Str) : Str := s.map pyLowerChar

/-- Embedding of Python `datetime`: an instant in UTC plus the
timezone-awareness flag. -/
structure PyDateTime where
  ts : Int
  aware : Bool
  deriving Repr, DecidableEq

/-- `t if t.tzinfo is not None else t.replace(tzinfo=timezone.utc)`:
interpret a naive datetime as UTC. -/
def PyDateTime.asUtc (t : PyDateTime) : PyDateTime :=
  if t.aware then t else { t with aware := true }

/-- The three `status` literals of `schemas/task_schemas.py` and
`models/task.py`. -/
inductive Status where
  | pending
  | in_progress
  | done
  deriving Repr, DecidableEq

/-- Stored User record (`models/user.py`, fields of `BaseDomainModal` and
`User`). -/
structure User where
  id : Nat
  name : Str
  email : Str
  created_at : PyDateTime
  deriving Repr, DecidableEq

/-- Stored Task record (`models/task.py`, `TaskModel`; `task_service.py`
imports it under the name `Task`). -/
structure TaskModel where
  id : Nat
  user_id : Nat
  title : Str
  description : Option Str
  priority : Nat
  status : Status
  due_date : PyDateTime
  created_at : PyDateTime
  updated_at : PyDateTime
  deriving Repr, DecidableEq

/-- The JSON document `{"users": [...], "tasks": [...]}` held in
`storage/data.json`. -/
structure StoreDoc where
  users : List User
  tasks : List TaskModel
  deriving Repr, DecidableEq

/-- The canonical empty document `{"users": [], "tasks": []}`. -/
def emptyDoc : StoreDoc := ⟨[], []⟩

/-- Observable states of the storage file as far as `_load_data` is
concerned: absent, present but not parseable as JSON, or parseable into a
document. -/
inductive FileState where
  | absent
  | corrupt
  | parsed (d : StoreDoc)
  deriving Repr, DecidableEq

/-- Errors raised by `TaskService._load_data` (uncaught Python
exceptions). -/
inductive LoadError where
  | fileNotFound
  | jsonDecodeError
  deriving Repr, DecidableEq

namespace UserService

/-- `UserService._load_data` (`src/services/user_service.py:21`):
returns `{"users": [], "tasks": []}` when the file is absent, catches
`json.JSONDecodeError` and returns the same empty document; otherwise
returns the parsed document. It never raises. -/
def load_data : FileState → StoreDoc
  | .absent => emptyDoc
  | .corrupt => emptyDoc
  | .parsed d => d

end UserService

namespace TaskService

/-- `TaskService._load_data` (`src/services/task_service.py:13`): opens the
file and parses it with no error handling; an absent file raises
`FileNotFoundError` and unparseable contents raise `json.JSONDecodeError`. -/
def load_data : FileState → Except LoadError StoreDoc
  | .absent => .error .fileNotFound
  | .corrupt => .error .jsonDecodeError
  | .parsed d => .ok d

end TaskService

/-- C1, counterexample: on a file whose contents fail to parse as JSON,
`TaskService._load_data` raises `json.JSONDecodeError` instead of returning
the canonical empty document, so the claim's "every service operation (user
and task alike)" fails on the task service. -/
theorem C1_counterexample :
    TaskService.load_data FileState.corrupt = Except.error LoadError.jsonDecodeError ∧
    TaskService.load_data FileState.absent = Except.error LoadError.fileNotFound := by
  exact ⟨rfl, rfl⟩

/-- C1, amended: for every storage-file state in which the file is absent or
its contents fail to parse as JSON, the user service's load step returns the
canonical empty document and never raises, while the task service's load
step propagates the failure as an error. -/
theorem C1_load_self_healing_user_only (fs : FileState)
    (h : fs = FileState.absent ∨ fs = FileState.corrupt) :
    UserService.load_data fs = emptyDoc ∧
    ∃ e, TaskService.load_data fs = Except.error e := by
  rcases h with h | h <;> subst h
  · exact ⟨rfl, LoadError.fileNotFound, rfl⟩
  · exact ⟨rfl, LoadError.jsonDecodeError, rfl⟩

/-- C1, witness: the amended theorem applied to the corrupt-file state. -/
theorem C1_load_self_healing_user_only_witness :
    UserService.load_data FileState.corrupt = emptyDoc ∧
    ∃ e, TaskService.load_data FileState.corrupt = Except.error e :=
  C1_load_self_healing_user_only FileState.corrupt (Or.inr rfl)

/-! ## Validation layer (`src/schemas/`) and internal model constraints
(`src/models/`)

Pydantic applies `Field(min_length=..., max_length=...)` constraints to the
raw value first; a `field_validator` (default "after" mode) then runs on the
value that passed those constraints. The embeddings below fold the `Field`
constraints and the custom validator of each field into one function, in
that order. -/

/-- Validation failures (pydantic `ValidationError` / `ValueError`
messages). -/
inductive ValErr where
  | stringTooShort
  | stringTooLong
  | emptyAfterTrim
  | invalidEmail
  | invalidLiteral
  | dueDateNotFuture
  | modelConstraint
  deriving Repr, DecidableEq

/-- Models the third-party `EmailStr` syntactic check used by
`schemas/user_schemas.py` and `models/user.py` (the checker itself is
library code, not part of this repository): exactly one `@` with nonempty
local part and domain, and no whitespace anywhere. -/
def emailSyntaxOk (s : Str) : Bool :=
  (s.filter (fun c => c = '@')).length = 1 &&
  !(s.head? == some '@') &&
  !(s.getLast? == some '@') &&
  s.all (fun c => !(isPySpace c))

/-- Raw payload of `POST /users` before validation. -/
structure RawUserInput where
  name : Str
  email : Str
  deriving Repr, DecidableEq

/-- `schemas/user_schemas.py`: validated `UserCreateInput`. -/
structure UserCreateInput where
  name : Str
  email : Str
  deriving Repr, DecidableEq

namespace UserCreateInput

/-- `UserBase.name` `Field(min_length=2, max_length=100)` followed by
`UserCreateInput.validate_name`: reject whitespace-only, return the
stripped value. -/
def validate_name (v : Str) : Except ValErr Str :=
  if v.length < 2 then .error .stringTooShort
  else if 100 < v.length then .error .stringTooLong
  else if pyStrip v = [] then .error .emptyAfterTrim
  else .ok (pyStrip v)

/-- `UserBase.email : EmailStr` followed by
`UserCreateInput.validate_email`: `v.lower().strip()`. -/
def validate_email (v : Str) : Except ValErr Str :=
  if emailSyntaxOk v then .ok (pyLower (pyStrip v)) else .error .invalidEmail

/-- Full validation of a user-creation payload into `UserCreateInput`:
each field's validation in declaration order, failing on the first error. -/
def validate (r : RawUserInput) : Except ValErr UserCreateInput :=
  match validate_name r.name with
  | .error e => .error e
  | .ok n =>
    match validate_email r.email with
    | .error e => .error e
    | .ok em => .ok ⟨n, em⟩

end UserCreateInput

/-- `models/user.py`: `User.name` is `Field(min_length=2, max_length=30)`
and `User.email` is `EmailStr`; pydantic re-validates both when
`User(**user_input.model_dump())` is constructed. -/
def userModelCheck (name email : Str) : Bool :=
  decide (2 ≤ name.length) && decide (name.length ≤ 30) && emailSyntaxOk email

/-- Stored User record re-validation (`User(**user)` on load). -/
def userModelValid (u : User) : Bool := userModelCheck u.name u.email

/-- `models/user.py` `name` field constraints alone
(`Field(min_length=2, max_length=30)`), as re-applied at
`User(**user_input.model_dump())`. -/
def User.name_field_check (s : Str) : Except ValErr Str :=
  if s.length < 2 then .error .modelConstraint
  else if 30 < s.length then .error .modelConstraint
  else .ok s

/-- The name field's path through user creation: schema validation
(`UserCreateInput`) followed by the internal `User` model's re-validation. -/
def user_name_pipeline (v : Str) : Except ValErr Str :=
  (UserCreateInput.validate_name v).bind User.name_field_check

/-- Raw payload of `POST /tasks` before validation. `priority` is absent or
an integer; `status` is a raw string. -/
structure RawTaskInput where
  user_id : Nat
  title : Str
  description : Option Str
  priority : Option Int
  status : Str
  due_date : PyDateTime
  deriving Repr, DecidableEq

/-- `schemas/task_schemas.py`: validated `TaskCreateInput`. -/
structure TaskCreateInput where
  user_id : Nat
  title : Str
  description : Option Str
  priority : Nat
  status : Status
  due_date : PyDateTime
  deriving Repr, DecidableEq

namespace TaskCreateInput

/-- `TaskBaseSchema.title` `Field(min_length=3, max_length=200)` followed by
`TaskCreateInput.validate_title`. -/
def validate_title (v : Str) : Except ValErr Str :=
  if v.length < 3 then .error .stringTooShort
  else if 200 < v.length then .error .stringTooLong
  else if pyStrip v = [] then .error .emptyAfterTrim
  else .ok (pyStrip v)

/-- `TaskCreateInput.validate_description`: strip; empty-after-strip becomes
`None`. Never fails. -/
def validate_description : Option Str → Option Str
  | none => none
  | some d => if pyStrip d = [] then none else some (pyStrip d)

/-- `TaskBaseSchema.priority : Literal[1,2,3,4,5] = 3`. -/
def validate_priority : Option Int → Except ValErr Nat
  | none => .ok 3
  | some n =>
    if n = 1 ∨ n = 2 ∨ n = 3 ∨ n = 4 ∨ n = 5 then .ok n.toNat
    else .error .invalidLiteral

/-- `TaskBaseSchema.status : Literal["pending", "in_progress", "done"]`. -/
def parse_status (s : Str) : Except ValErr Status :=
  if s = "pending".toList then .ok .pending
  else if s = "in_progress".toList then .ok .in_progress
  else if s = "done".toList then .ok .done
  else .error .invalidLiteral

/-- `TaskCreateInput.validate_due_date_is_future`: a naive value is
re-interpreted as UTC, then the value must be strictly after `now`. -/
def validate_due_date_is_future (now : Int) (t : PyDateTime) : Except ValErr PyDateTime :=
  if t.asUtc.ts ≤ now then .error .dueDateNotFuture else .ok t.asUtc

/-- Full validation of a task-creation payload into `TaskCreateInput`:
each field's validation in declaration order, failing on the first error. -/
def validate (now : Int) (r : RawTaskInput) : Except ValErr TaskCreateInput :=
  match validate_title r.title with
  | .error e => .error e
  | .ok t =>
    match validate_priority r.priority with
    | .error e => .error e
    | .ok p =>
      match parse_status r.status with
      | .error e => .error e
      | .ok s =>
        match validate_due_date_is_future now r.due_date with
        | .error e => .error e
        | .ok dd => .ok ⟨r.user_id, t, validate_description r.description, p, s, dd⟩

end TaskCreateInput

/-- `schemas/task_schemas.py`: validated `TaskUpdateInput`. An outer `none`
means the field was not supplied (pydantic `exclude_unset`); for
`description` the inner `Option` is the nullable value itself. -/
structure TaskUpdateInput where
  title : Option Str := none
  description : Option (Option Str) := none
  priority : Option Nat := none
  status : Option Status := none
  due_date : Option PyDateTime := none
  deriving Repr, DecidableEq

namespace TaskUpdateInput

/-- `TaskUpdateInput.title` `Field(default=None, min_length=3,
max_length=200)` followed by `TaskUpdateInput.validate_title`. -/
def validate_title : Option Str → Except ValErr (Option Str)
  | none => .ok none
  | some v =>
    if v.length < 3 then .error .stringTooShort
    else if 200 < v.length then .error .stringTooLong
    else if pyStrip v = [] then .error .emptyAfterTrim
    else .ok (some (pyStrip v))

/-- `TaskUpdateInput.validate_updated_due_date_is_future`: identical
future-only rule, skipped when the field is absent. -/
def validate_updated_due_date_is_future (now : Int) :
    Option PyDateTime → Except ValErr (Option PyDateTime)
  | none => .ok none
  | some t =>
    if t.asUtc.ts ≤ now then .error .dueDateNotFuture else .ok (some t.asUtc)

end TaskUpdateInput

/-- `models/task.py`: `TaskModel.title` is `Field(min_length=3,
max_length=50)` and `TaskModel.priority` is `Literal[1,2,3,4,5]`; pydantic
re-validates both whenever `Task(**...)` is constructed. -/
def taskModelCheck (title : Str) (priority : Nat) : Bool :=
  decide (3 ≤ title.length) && decide (title.length ≤ 50) &&
  decide (1 ≤ priority) && decide (priority ≤ 5)

/-- Stored Task record re-validation (`Task(**task)` on load/update). -/
def taskModelValid (t : TaskModel) : Bool := taskModelCheck t.title t.priority

/-- `models/task.py` `title` field constraints alone
(`Field(min_length=3, max_length=50)`), as re-applied at `Task(**...)`. -/
def TaskModel.title_field_check (s : Str) : Except ValErr Str :=
  if s.length < 3 then .error .modelConstraint
  else if 50 < s.length then .error .modelConstraint
  else .ok s

/-- The title field's path through task creation: schema validation
(`TaskCreateInput`) followed by the internal `TaskModel` re-validation. -/
def task_title_pipeline (v : Str) : Except ValErr Str :=
  (TaskCreateInput.validate_title v).bind TaskModel.title_field_check

/-- C2, counterexample: the `Field` length bounds apply to the raw value and
the trim happens afterwards, so a name of 100 `a`s followed by a space
(trimmed length 100, within the claimed 2–100 bound) is rejected, and a
title of 200 `a`s followed by a space (trimmed length 200, within the
claimed 3–200 bound) is rejected. -/
theorem C2_counterexample :
    (2 ≤ (pyStrip (List.replicate 100 'a' ++ [' '])).length ∧
      (pyStrip (List.replicate 100 'a' ++ [' '])).length ≤ 100) ∧
    user_name_pipeline (List.replicate 100 'a' ++ [' ']) = Except.error ValErr.stringTooLong ∧
    (3 ≤ (pyStrip (List.replicate 200 'a' ++ [' '])).length ∧
      (pyStrip (List.replicate 200 'a' ++ [' '])).length ≤ 200) ∧
    task_title_pipeline (List.replicate 200 'a' ++ [' ']) = Except.error ValErr.stringTooLong := by
  refine ⟨by decide, by rfl, by decide, by rfl⟩

/-- Characterization of the name field's creation path: schema bounds on the
raw value, then trim, then the `User` model bounds on the trimmed value. -/
theorem user_name_pipeline_spec (v : Str) :
    ((∃ s, user_name_pipeline v = Except.ok s) ↔
      (2 ≤ v.length ∧ v.length ≤ 100 ∧
        2 ≤ (pyStrip v).length ∧ (pyStrip v).length ≤ 30)) ∧
    (∀ s, user_name_pipeline v = Except.ok s → s = pyStrip v) := by
  unfold user_name_pipeline UserCreateInput.validate_name
  split_ifs with h1 h2 h3
  · simp_all [Except.bind] <;> omega
  · simp_all [Except.bind] <;> omega
  · simp_all [Except.bind] <;> omega
  · simp only [Except.bind, User.name_field_check]
    split_ifs with h4 h5
    · simp_all <;> omega
    · simp_all <;> omega
    · simp_all <;> omega

/-- Characterization of the title field's creation path: schema bounds on
the raw value, then trim, then the `TaskModel` bounds on the trimmed
value. -/
theorem task_title_pipeline_spec (v : Str) :
    ((∃ s, task_title_pipeline v = Except.ok s) ↔
      (3 ≤ v.length ∧ v.length ≤ 200 ∧
        3 ≤ (pyStrip v).length ∧ (pyStrip v).length ≤ 50)) ∧
    (∀ s, task_title_pipeline v = Except.ok s → s = pyStrip v) := by
  unfold task_title_pipeline TaskCreateInput.validate_title
  split_ifs with h1 h2 h3
  · simp_all [Except.bind] <;> omega
  · simp_all [Except.bind] <;> omega
  · simp_all [Except.bind] <;> omega
  · simp only [Except.bind, TaskModel.title_field_check]
    split_ifs with h4 h5
    · simp_all <;> omega
    · simp_all <;> omega
    · simp_all <;> omega

/-- C2, amended: user creation succeeds on the name field exactly when the
raw (un-trimmed) length is between 2 and 100 and the trimmed length is
between 2 and 30 (the internal `User` model bound); task creation succeeds
on the title field exactly when the raw length is between 3 and 200 and the
trimmed length is between 3 and 50 (the internal `TaskModel` bound); the
accepted value is the trimmed string. -/
theorem C2_name_title_bounds (v : Str) :
    ((∃ s, user_name_pipeline v = Except.ok s) ↔
      (2 ≤ v.length ∧ v.length ≤ 100 ∧
        2 ≤ (pyStrip v).length ∧ (pyStrip v).length ≤ 30)) ∧
    (∀ s, user_name_pipeline v = Except.ok s → s = pyStrip v) ∧
    ((∃ s, task_title_pipeline v = Except.ok s) ↔
      (3 ≤ v.length ∧ v.length ≤ 200 ∧
        3 ≤ (pyStrip v).length ∧ (pyStrip v).length ≤ 50)) ∧
    (∀ s, task_title_pipeline v = Except.ok s → s = pyStrip v) :=
  ⟨(user_name_pipeline_spec v).1, (user_name_pipeline_spec v).2,
    (task_title_pipeline_spec v).1, (task_title_pipeline_spec v).2⟩

/-- C2, witness: the amended theorem evaluated at the concrete name
`" Ann "`. -/
theorem C2_name_title_bounds_witness :
    ((∃ s, user_name_pipeline (' ' :: 'A' :: 'n' :: 'n' :: [' ']) = Except.ok s) ↔
      (2 ≤ (' ' :: 'A' :: 'n' :: 'n' :: [' ']).length ∧
        (' ' :: 'A' :: 'n' :: 'n' :: [' ']).length ≤ 100 ∧
        2 ≤ (pyStrip (' ' :: 'A' :: 'n' :: 'n' :: [' '])).length ∧
        (pyStrip (' ' :: 'A' :: 'n' :: 'n' :: [' '])).length ≤ 30)) ∧
    (∀ s, user_name_pipeline (' ' :: 'A' :: 'n' :: 'n' :: [' ']) = Except.ok s →
      s = pyStrip (' ' :: 'A' :: 'n' :: 'n' :: [' '])) ∧
    ((∃ s, task_title_pipeline (' ' :: 'A' :: 'n' :: 'n' :: [' ']) = Except.ok s) ↔
      (3 ≤ (' ' :: 'A' :: 'n' :: 'n' :: [' ']).length ∧
        (' ' :: 'A' :: 'n' :: 'n' :: [' ']).length ≤ 200 ∧
        3 ≤ (pyStrip (' ' :: 'A' :: 'n' :: 'n' :: [' '])).length ∧
        (pyStrip (' ' :: 'A' :: 'n' :: 'n' :: [' '])).length ≤ 50)) ∧
    (∀ s, task_title_pipeline (' ' :: 'A' :: 'n' :: 'n' :: [' ']) = Except.ok s →
      s = pyStrip (' ' :: 'A' :: 'n' :: 'n' :: [' '])) :=
  C2_name_title_bounds (' ' :: 'A' :: 'n' :: 'n' :: [' '])

/-- C5, confirmed: at creation and at update alike, a supplied `due_date`
(naive values interpreted as UTC, which leaves the instant unchanged) is
rejected exactly when it is less than or equal to the current UTC time and
accepted exactly when it is strictly in the future; the accepted value is
the UTC-interpreted datetime, and an absent `due_date` at update passes. -/
theorem C5_due_date_future (now : Int) (t : PyDateTime) :
    ((∃ u, TaskCreateInput.validate_due_date_is_future now t = Except.ok u) ↔ now < t.ts) ∧
    (TaskCreateInput.validate_due_date_is_future now t = Except.error ValErr.dueDateNotFuture
      ↔ t.ts ≤ now) ∧
    ((∃ u, TaskUpdateInput.validate_updated_due_date_is_future now (some t) = Except.ok u)
      ↔ now < t.ts) ∧
    (TaskUpdateInput.validate_updated_due_date_is_future now (some t)
        = Except.error ValErr.dueDateNotFuture ↔ t.ts ≤ now) ∧
    (∀ u, TaskCreateInput.validate_due_date_is_future now t = Except.ok u → u = t.asUtc) ∧
    TaskUpdateInput.validate_updated_due_date_is_future now none = Except.ok none := by
  have hts : t.asUtc.ts = t.ts := by
    unfold PyDateTime.asUtc
    split <;> rfl
  unfold TaskCreateInput.validate_due_date_is_future
    TaskUpdateInput.validate_updated_due_date_is_future
  simp only [hts]
  split_ifs with h <;> simp_all

/-- C5, witness: the theorem evaluated at `now = 0` and a naive datetime
one unit in the future. -/
theorem C5_due_date_future_witness :
    ((∃ u, TaskCreateInput.validate_due_date_is_future 0 ⟨1, false⟩ = Except.ok u) ↔
      (0 : Int) < (1 : Int)) ∧
    (TaskCreateInput.validate_due_date_is_future 0 ⟨1, false⟩
        = Except.error ValErr.dueDateNotFuture ↔ (1 : Int) ≤ 0) ∧
    ((∃ u, TaskUpdateInput.validate_updated_due_date_is_future 0 (some ⟨1, false⟩)
        = Except.ok u) ↔ (0 : Int) < 1) ∧
    (TaskUpdateInput.validate_updated_due_date_is_future 0 (some ⟨1, false⟩)
        = Except.error ValErr.dueDateNotFuture ↔ (1 : Int) ≤ 0) ∧
    (∀ u, TaskCreateInput.validate_due_date_is_future 0 ⟨1, false⟩ = Except.ok u →
      u = PyDateTime.asUtc ⟨1, false⟩) ∧
    TaskUpdateInput.validate_updated_due_date_is_future 0 none = Except.ok none :=
  C5_due_date_future 0 ⟨1, false⟩

/-! ## Entity services (`src/services/`)

Every operation mirrors the Python read-modify-write cycle against a loaded
document: the operation receives the current `StoreDoc`, and a returned
`StoreDoc` is the document passed to `_save_data`. Operations that raise
before calling `_save_data` return an error and leave no new document, so
the file is untouched. Generated values (`uuid4()`, `datetime.now(utc)`) are
passed in explicitly. -/

/-- Failures of `UserService.create_user`: the duplicate-email
`HTTPException` ("Email already registered"), or the pydantic
`ValidationError` raised by `User(**user_input.model_dump())` when the
internal model's constraints (name length 2–30, `EmailStr`) reject the
validated input. -/
inductive CreateUserErr where
  | duplicateEmail
  | modelValidation
  deriving Repr, DecidableEq

/-- Failures of `TaskService.create_task`: the `ValueError("User does not
exist")`, or the pydantic `ValidationError` raised by
`Task(**task_input.model_dump())` when the internal `TaskModel` constraints
(title length 3–50, priority literal) reject the validated input. -/
inductive CreateTaskErr where
  | unknownUser
  | modelValidation
  deriving Repr, DecidableEq

namespace UserService

/-- `UserService.create_user`: check for a duplicate email by literal
comparison of the stored strings against the (already normalized) input
email; raise the 400 `HTTPException` on a hit; otherwise construct
`User(**user_input.model_dump())` — which re-validates the name bound 2–30
and the email syntax — append it and persist. -/
def create_user (d : StoreDoc) (inp : UserCreateInput) (uid : Nat)
    (now : PyDateTime) : Except CreateUserErr (User × StoreDoc) :=
  if d.users.any (fun u => u.email == inp.email) then
    .error .duplicateEmail
  else if userModelCheck inp.name inp.email then
    .ok (⟨uid, inp.name, inp.email, now⟩,
      ⟨d.users ++ [⟨uid, inp.name, inp.email, now⟩], d.tasks⟩)
  else .error .modelValidation

/-- `UserService.get_all_users`: `[User(**user) for user in data["users"]]`;
each stored record is re-validated by the `User` model. -/
def get_all_users (d : StoreDoc) : Except ValErr (List User) :=
  d.users.mapM (fun u =>
    if userModelValid u then Except.ok u else Except.error ValErr.modelConstraint)

/-- `UserService.get_user_by_id`: linear scan; the found record is
re-validated by `User(**user)`. -/
def get_user_by_id (d : StoreDoc) (uid : Nat) : Option (Except ValErr User) :=
  (d.users.find? (fun u => u.id == uid)).map (fun u =>
    if userModelValid u then Except.ok u else Except.error ValErr.modelConstraint)

/-- Helper for `delete_user`: `del users[i]` at the first index whose `id`
matches; `none` when no record matches. -/
def deleteFirstUser (uid : Nat) : List User → Option (List User)
  | [] => none
  | u :: us =>
    if u.id == uid then some us
    else (deleteFirstUser uid us).map (fun l => u :: l)

/-- `UserService.delete_user`: remove the first matching record and persist,
returning `True`; return `False` without saving when no record matches. -/
def delete_user (d : StoreDoc) (uid : Nat) : Bool × StoreDoc :=
  match deleteFirstUser uid d.users with
  | some us => (true, ⟨us, d.tasks⟩)
  | none => (false, d)

end UserService

namespace TaskService

/-- `TaskService.create_task`: raise `ValueError("User does not exist")`
when no stored user's id matches `task_input.user_id`; otherwise construct
`Task(**task_input.model_dump())` — which re-validates the title bound 3–50
and the priority literal — append it and persist. `created_at` and
`updated_at` are both set to the creation instant. -/
def create_task (d : StoreDoc) (inp : TaskCreateInput) (tid : Nat)
    (now : PyDateTime) : Except CreateTaskErr (TaskModel × StoreDoc) :=
  if !(d.users.any (fun u => u.id == inp.user_id)) then
    .error .unknownUser
  else if taskModelCheck inp.title inp.priority then
    .ok (⟨tid, inp.user_id, inp.title, inp.description,
        inp.priority, inp.status, inp.due_date, now, now⟩,
      ⟨d.users, d.tasks ++ [⟨tid, inp.user_id, inp.title, inp.description,
        inp.priority, inp.status, inp.due_date, now, now⟩]⟩)
  else .error .modelValidation

/-- `TaskService.get_all_tasks`: `[Task(**task) for task in data["tasks"]]`;
each stored record is re-validated by the `TaskModel` model. -/
def get_all_tasks (d : StoreDoc) : Except ValErr (List TaskModel) :=
  d.tasks.mapM (fun t =>
    if taskModelValid t then Except.ok t else Except.error ValErr.modelConstraint)

/-- The `for key, value in task_input.model_dump(exclude_unset=True).items():
task[key] = value` loop followed by `task["updated_at"] = datetime.now(utc)`:
supplied fields overwrite, unsupplied fields are untouched, `updated_at` is
always refreshed. -/
def applyUpdate (t : TaskModel) (p : TaskUpdateInput) (now : PyDateTime) : TaskModel :=
  { t with
    title := p.title.getD t.title
    description := p.description.getD t.description
    priority := p.priority.getD t.priority
    status := p.status.getD t.status
    due_date := p.due_date.getD t.due_date
    updated_at := now }

/-- Helper for `update_task`: mutate the first record whose `id` matches,
returning the new task list and the mutated record; `none` when no record
matches. -/
def updateFirstTask (tid : Nat) (p : TaskUpdateInput) (now : PyDateTime) :
    List TaskModel → Option (List TaskModel × TaskModel)
  | [] => none
  | t :: ts =>
    if t.id == tid then
      let t2 := applyUpdate t p now
      some (t2 :: ts, t2)
    else (updateFirstTask tid p now ts).map (fun r => (t :: r.1, r.2))

/-- `TaskService.update_task`: locate the record, mutate it in place,
`_save_data` the document, then build `Task(**task)` — the re-validation
happens **after** the document was rewritten, so a constraint violation
surfaces as an error while the mutated document is already persisted. The
result pairs the saved document with the possibly-failing record
construction; `none` means the id was absent and nothing was saved. -/
def update_task (d : StoreDoc) (tid : Nat) (p : TaskUpdateInput)
    (now : PyDateTime) : Option (StoreDoc × Except ValErr TaskModel) :=
  (updateFirstTask tid p now d.tasks).map (fun r =>
    (⟨d.users, r.1⟩,
      if taskModelValid r.2 then Except.ok r.2 else Except.error ValErr.modelConstraint))

/-- Helper for `delete_task`: `del tasks[i]` at the first index whose `id`
matches. -/
def deleteFirstTask (tid : Nat) : List TaskModel → Option (List TaskModel)
  | [] => none
  | t :: ts =>
    if t.id == tid then some ts
    else (deleteFirstTask tid ts).map (fun l => t :: l)

/-- `TaskService.delete_task`: remove the first matching record and persist,
returning `True`; return `False` without saving when no record matches. -/
def delete_task (d : StoreDoc) (tid : Nat) : Bool × StoreDoc :=
  match deleteFirstTask tid d.tasks with
  | some ts => (true, ⟨d.users, ts⟩)
  | none => (false, d)

end TaskService

/-! ## Sample records used by concrete witnesses and counterexamples -/

/-- A stored user with normalized fields, as produced by `create_user`. -/
def bobUser : User :=
  ⟨1, ['b', 'o', 'b'], ['b', 'o', 'b', '@', 'x', '.', 'c', 'o', 'm'], ⟨0, true⟩⟩

/-- A document holding exactly `bobUser`. -/
def oneUserDoc : StoreDoc := ⟨[bobUser], []⟩

/-- A stored task owned by `bobUser`, satisfying every `TaskModel`
constraint. -/
def sampleTask : TaskModel :=
  ⟨10, 1, ['w', 'r', 'i', 't', 'e'], none, 3, Status.pending,
    ⟨100, true⟩, ⟨0, true⟩, ⟨0, true⟩⟩

/-- A document holding `bobUser` and `sampleTask`. -/
def oneTaskDoc : StoreDoc := ⟨[bobUser], [sampleTask]⟩

/-- C3, counterexample: a validated user-creation input whose email
duplicates no stored email (the store is empty) still fails, because
`User(**user_input.model_dump())` re-validates the name against the internal
model bound `max_length=30`, which is narrower than the schema's 100: a
40-character name passes the schema but creation raises a
`ValidationError` instead of succeeding. -/
theorem C3_counterexample :
    UserCreateInput.validate ⟨List.replicate 40 'a', ['x', '@', 'y', '.', 'z']⟩
      = Except.ok ⟨List.replicate 40 'a', ['x', '@', 'y', '.', 'z']⟩ ∧
    emptyDoc.users = [] ∧
    UserService.create_user emptyDoc
        ⟨List.replicate 40 'a', ['x', '@', 'y', '.', 'z']⟩ 1 ⟨0, true⟩
      = Except.error CreateUserErr.modelValidation :=
  ⟨rfl, rfl, rfl⟩

/-- C3, amended: for every store whose user emails are normalized (as every
store produced by `create_user` is) and every validated user-creation input
whose remaining fields also satisfy the internal `User` model (trimmed name
length 2–30, email syntax preserved under normalization), creation fails
with the duplicate-email error exactly on the claim's case-insensitive
trimmed match — the store left untouched since the exception precedes the
save — and otherwise succeeds, appending a user whose stored email is the
trimmed, lower-cased input email. -/
theorem C3_duplicate_email (d : StoreDoc) (r : RawUserInput) (inp : UserCreateInput)
    (uid : Nat) (now : PyDateTime)
    (hv : UserCreateInput.validate r = Except.ok inp)
    (hinv : ∀ u ∈ d.users, u.email = pyLower (pyStrip u.email))
    (hn : 2 ≤ (pyStrip r.name).length ∧ (pyStrip r.name).length ≤ 30)
    (hse : emailSyntaxOk (pyLower (pyStrip r.email)) = true) :
    ((∃ u ∈ d.users, pyLower (pyStrip u.email) = pyLower (pyStrip r.email)) →
      UserService.create_user d inp uid now = Except.error CreateUserErr.duplicateEmail) ∧
    ((¬ ∃ u ∈ d.users, pyLower (pyStrip u.email) = pyLower (pyStrip r.email)) →
      UserService.create_user d inp uid now
        = Except.ok (⟨uid, inp.name, inp.email, now⟩,
            ⟨d.users ++ [⟨uid, inp.name, inp.email, now⟩], d.tasks⟩) ∧
      inp.email = pyLower (pyStrip r.email)) := by
  have hparts : inp.name = pyStrip r.name ∧ inp.email = pyLower (pyStrip r.email) := by
    unfold UserCreateInput.validate UserCreateInput.validate_name
      UserCreateInput.validate_email at hv
    split_ifs at hv <;> simp_all <;> (subst hv; exact ⟨rfl, rfl⟩)
  obtain ⟨hname, hemail⟩ := hparts
  constructor
  · rintro ⟨u, hu, he⟩
    have hdup : d.users.any (fun u => u.email == inp.email) = true := by
      rw [List.any_eq_true]
      exact ⟨u, hu, by simp [hemail, (hinv u hu).trans he]⟩
    unfold UserService.create_user
    rw [hdup]
    simp
  · intro hnd
    have hdup : d.users.any (fun u => u.email == inp.email) = false := by
      rw [List.any_eq_false]
      intro u hu
      simp only [beq_iff_eq]
      intro he
      exact hnd ⟨u, hu, by rw [← (hinv u hu), he, hemail]⟩
    have hmodel : userModelCheck inp.name inp.email = true := by
      unfold userModelCheck
      rw [hname, hemail]
      simp [hn.1, hn.2, hse]
    unfold UserService.create_user
    rw [hdup]
    simp [hmodel]
    exact hemail

/-- C3, witness: the amended theorem applied to a one-user store and the
raw input `{name: " Ann ", email: "ANN@X.COM"}`. -/
theorem C3_duplicate_email_witness :
    ((∃ u ∈ oneUserDoc.users,
        pyLower (pyStrip u.email)
          = pyLower (pyStrip ['A', 'N', 'N', '@', 'X', '.', 'C', 'O', 'M'])) →
      UserService.create_user oneUserDoc
          ⟨['A', 'n', 'n'], ['a', 'n', 'n', '@', 'x', '.', 'c', 'o', 'm']⟩ 2 ⟨1, true⟩
        = Except.error CreateUserErr.duplicateEmail) ∧
    ((¬ ∃ u ∈ oneUserDoc.users,
        pyLower (pyStrip u.email)
          = pyLower (pyStrip ['A', 'N', 'N', '@', 'X', '.', 'C', 'O', 'M'])) →
      UserService.create_user oneUserDoc
          ⟨['A', 'n', 'n'], ['a', 'n', 'n', '@', 'x', '.', 'c', 'o', 'm']⟩ 2 ⟨1, true⟩
        = Except.ok (⟨2, ['A', 'n', 'n'], ['a', 'n', 'n', '@', 'x', '.', 'c', 'o', 'm'], ⟨1, true⟩⟩,
            ⟨oneUserDoc.users
                ++ [⟨2, ['A', 'n', 'n'], ['a', 'n', 'n', '@', 'x', '.', 'c', 'o', 'm'], ⟨1, true⟩⟩],
              oneUserDoc.tasks⟩) ∧
      (['a', 'n', 'n', '@', 'x', '.', 'c', 'o', 'm'] : Str)
        = pyLower (pyStrip ['A', 'N', 'N', '@', 'X', '.', 'C', 'O', 'M'])) :=
  C3_duplicate_email oneUserDoc
    ⟨[' ', 'A', 'n', 'n', ' '], ['A', 'N', 'N', '@', 'X', '.', 'C', 'O', 'M']⟩
    ⟨['A', 'n', 'n'], ['a', 'n', 'n', '@', 'x', '.', 'c', 'o', 'm']⟩ 2 ⟨1, true⟩
    (by rfl) (by decide) (by decide) (by decide)

/-- C4, counterexample: a validated task-creation input whose `user_id`
does exist in the stored users can still fail to append: a 60-character
title passes the schema bound (3–200) but `Task(**task_input.model_dump())`
re-validates against the internal `TaskModel` bound `max_length=50` and
raises, so creation neither appends nor persists. -/
theorem C4_counterexample :
    (∃ u ∈ oneUserDoc.users, u.id = 1) ∧
    TaskCreateInput.validate_title (List.replicate 60 'a')
      = Except.ok (List.replicate 60 'a') ∧
    TaskService.create_task oneUserDoc
        ⟨1, List.replicate 60 'a', none, 3, Status.pending, ⟨100, true⟩⟩ 2 ⟨1, true⟩
      = Except.error CreateTaskErr.modelValidation := by
  refine ⟨⟨bobUser, by decide, by decide⟩, by rfl, by rfl⟩

/-- C4, amended: for every store and validated task-creation input, creation
fails with the unknown-user error — without touching the store, since the
exception precedes the save — exactly when no stored user's id equals the
input's `user_id`; when such a user exists and the validated fields also
satisfy the internal `TaskModel` constraints (title trimmed length 3–50,
priority 1–5), creation appends the new task record and persists. -/
theorem C4_unknown_user (d : StoreDoc) (inp : TaskCreateInput) (tid : Nat)
    (now : PyDateTime) :
    ((¬ ∃ u ∈ d.users, u.id = inp.user_id) →
      TaskService.create_task d inp tid now = Except.error CreateTaskErr.unknownUser) ∧
    ((∃ u ∈ d.users, u.id = inp.user_id) →
      taskModelCheck inp.title inp.priority = true →
      TaskService.create_task d inp tid now
        = Except.ok (⟨tid, inp.user_id, inp.title, inp.description, inp.priority,
              inp.status, inp.due_date, now, now⟩,
            ⟨d.users,
              d.tasks ++ [⟨tid, inp.user_id, inp.title, inp.description, inp.priority,
                inp.status, inp.due_date, now, now⟩]⟩)) := by
  constructor
  · intro hne
    have hex : d.users.any (fun u => u.id == inp.user_id) = false := by
      rw [List.any_eq_false]
      intro u hu
      simp only [beq_iff_eq]
      exact fun he => hne ⟨u, hu, he⟩
    unfold TaskService.create_task
    rw [hex]
    simp
  · rintro ⟨u, hu, he⟩ hmodel
    have hex : d.users.any (fun u => u.id == inp.user_id) = true := by
      rw [List.any_eq_true]
      exact ⟨u, hu, by simp [he]⟩
    unfold TaskService.create_task
    rw [hex]
    simp [hmodel]

/-- C4, witness: the amended theorem applied to the one-user store and a
well-formed task input referencing the existing user. -/
theorem C4_unknown_user_witness :
    ((¬ ∃ u ∈ oneUserDoc.users,
        u.id = (⟨1, ['f', 'i', 'x'], none, 2, Status.pending,
          ⟨100, true⟩⟩ : TaskCreateInput).user_id) →
      TaskService.create_task oneUserDoc
          ⟨1, ['f', 'i', 'x'], none, 2, Status.pending, ⟨100, true⟩⟩ 7 ⟨5, true⟩
        = Except.error CreateTaskErr.unknownUser) ∧
    ((∃ u ∈ oneUserDoc.users,
        u.id = (⟨1, ['f', 'i', 'x'], none, 2, Status.pending,
          ⟨100, true⟩⟩ : TaskCreateInput).user_id) →
      taskModelCheck ['f', 'i', 'x'] 2 = true →
      TaskService.create_task oneUserDoc
          ⟨1, ['f', 'i', 'x'], none, 2, Status.pending, ⟨100, true⟩⟩ 7 ⟨5, true⟩
        = Except.ok (⟨7, 1, ['f', 'i', 'x'], none, 2, Status.pending,
              ⟨100, true⟩, ⟨5, true⟩, ⟨5, true⟩⟩,
            ⟨oneUserDoc.users,
              oneUserDoc.tasks ++ [⟨7, 1, ['f', 'i', 'x'], none, 2, Status.pending,
                ⟨100, true⟩, ⟨5, true⟩, ⟨5, true⟩⟩]⟩)) :=
  C4_unknown_user oneUserDoc ⟨1, ['f', 'i', 'x'], none, 2, Status.pending, ⟨100, true⟩⟩ 7 ⟨5, true⟩

/-- `del users[i]` on the first match: when the matching record sits after a
prefix of non-matching records, exactly that record is removed. -/
theorem deleteFirstUser_append (uid : Nat) (pre post : List User) (u : User)
    (hu : u.id = uid) (hpre : ∀ v ∈ pre, v.id ≠ uid) :
    UserService.deleteFirstUser uid (pre ++ u :: post) = some (pre ++ post) := by
  induction pre with
  | nil => simp [UserService.deleteFirstUser, hu]
  | cons v vs ih =>
    have hv : (v.id == uid) = false := by
      simp [hpre v (List.mem_cons_self v vs)]
    simp only [List.cons_append, UserService.deleteFirstUser, hv,
      Bool.false_eq_true, if_false, List.append_eq]
    rw [ih (fun w hw => hpre w (List.mem_cons_of_mem v hw))]
    simp

/-- `del users[i]` finds nothing when no stored id matches. -/
theorem deleteFirstUser_none (uid : Nat) (l : List User)
    (h : ∀ v ∈ l, v.id ≠ uid) :
    UserService.deleteFirstUser uid l = none := by
  induction l with
  | nil => rfl
  | cons v vs ih =>
    have hv : (v.id == uid) = false := by
      simp [h v (List.mem_cons_self v vs)]
    simp only [UserService.deleteFirstUser, hv,
      Bool.false_eq_true, if_false]
    rw [ih (fun w hw => h w (List.mem_cons_of_mem v hw))]
    rfl

/-- `del tasks[i]` finds nothing when no stored id matches. -/
theorem deleteFirstTask_none (tid : Nat) (l : List TaskModel)
    (h : ∀ v ∈ l, v.id ≠ tid) :
    TaskService.deleteFirstTask tid l = none := by
  induction l with
  | nil => rfl
  | cons v vs ih =>
    have hv : (v.id == tid) = false := by
      simp [h v (List.mem_cons_self v vs)]
    simp only [TaskService.deleteFirstTask, hv,
      Bool.false_eq_true, if_false]
    rw [ih (fun w hw => h w (List.mem_cons_of_mem v hw))]
    rfl

/-- C7, confirmed: deleting a stored user id removes only that user record —
the first (and under unique ids, only) record with that id — while the
tasks collection is bit-for-bit unchanged, so every task referencing the
deleted id stays in the store as an orphaned reference. -/
theorem C7_delete_user_frame (pre post : List User) (tasks : List TaskModel)
    (u : User) (hpre : ∀ v ∈ pre, v.id ≠ u.id) :
    UserService.delete_user ⟨pre ++ u :: post, tasks⟩ u.id
      = (true, ⟨pre ++ post, tasks⟩) ∧
    (UserService.delete_user ⟨pre ++ u :: post, tasks⟩ u.id).2.tasks = tasks ∧
    ∀ t ∈ tasks, t.user_id = u.id →
      t ∈ (UserService.delete_user ⟨pre ++ u :: post, tasks⟩ u.id).2.tasks := by
  have h := deleteFirstUser_append u.id pre post u rfl hpre
  unfold UserService.delete_user
  rw [h]
  exact ⟨rfl, rfl, fun t ht _ => ht⟩

/-- C7, witness: deleting `bobUser` from the store that also holds a task
referencing `bobUser.id`. -/
theorem C7_delete_user_frame_witness :
    UserService.delete_user ⟨[] ++ bobUser :: [], [sampleTask]⟩ bobUser.id
      = (true, ⟨[] ++ [], [sampleTask]⟩) ∧
    (UserService.delete_user ⟨[] ++ bobUser :: [], [sampleTask]⟩ bobUser.id).2.tasks
      = [sampleTask] ∧
    ∀ t ∈ [sampleTask], t.user_id = bobUser.id →
      t ∈ (UserService.delete_user ⟨[] ++ bobUser :: [], [sampleTask]⟩ bobUser.id).2.tasks :=
  C7_delete_user_frame [] [] [sampleTask] bobUser (by simp)

/-- C8, confirmed: when the targeted id is absent from the relevant
collection, `delete_user` and `delete_task` return the `False` flag (mapped
to `NotFound` by the routes) without raising, and — since `_save_data` is
never reached — the stored document is not modified in any way. -/
theorem C8_delete_absent (d : StoreDoc) (uid tid : Nat)
    (hu : ∀ u ∈ d.users, u.id ≠ uid)
    (ht : ∀ t ∈ d.tasks, t.id ≠ tid) :
    UserService.delete_user d uid = (false, d) ∧
    TaskService.delete_task d tid = (false, d) := by
  constructor
  · unfold UserService.delete_user
    rw [deleteFirstUser_none uid d.users hu]
  · unfold TaskService.delete_task
    rw [deleteFirstTask_none tid d.tasks ht]

/-- C8, witness: deleting absent ids from the one-user, one-task store. -/
theorem C8_delete_absent_witness :
    UserService.delete_user oneTaskDoc 99 = (false, oneTaskDoc) ∧
    TaskService.delete_task oneTaskDoc 99 = (false, oneTaskDoc) :=
  C8_delete_absent oneTaskDoc 99 99 (by decide) (by decide)

/-- The in-place mutation loop of `update_task` on the first match: when the
matching record sits after a prefix of non-matching records, exactly that
record is replaced by its updated version. -/
theorem updateFirstTask_append (tid : Nat) (p : TaskUpdateInput) (now : PyDateTime)
    (pre post : List TaskModel) (t : TaskModel)
    (ht : t.id = tid) (hpre : ∀ v ∈ pre, v.id ≠ tid) :
    TaskService.updateFirstTask tid p now (pre ++ t :: post)
      = some (pre ++ TaskService.applyUpdate t p now :: post,
          TaskService.applyUpdate t p now) := by
  induction pre with
  | nil => simp [TaskService.updateFirstTask, ht]
  | cons v vs ih =>
    have hv : (v.id == tid) = false := by
      simp [hpre v (List.mem_cons_self v vs)]
    simp only [List.cons_append, TaskService.updateFirstTask, hv,
      Bool.false_eq_true, if_false, List.append_eq]
    rw [ih (fun w hw => hpre w (List.mem_cons_of_mem v hw))]
    simp

/-- C6, counterexample: a reachable update payload (the raw title `" ab "`
passes the schema's 3–200 raw-length bound and is trimmed to `"ab"`)
violates the internal `TaskModel` bound `min_length=3` when re-validated by
`Task(**task)`. Because `_save_data` runs before that re-validation, the
store is rewritten with the changed field, yet `update_task` raises instead
of returning the updated record, so the claim's "returned record reflecting
the applied changes" fails. -/
theorem C6_counterexample :
    TaskUpdateInput.validate_title (some [' ', 'a', 'b', ' '])
      = Except.ok (some ['a', 'b']) ∧
    TaskService.update_task oneTaskDoc 10
        ⟨some ['a', 'b'], none, none, none, none⟩ ⟨7, true⟩
      = some (⟨[bobUser],
            [⟨10, 1, ['a', 'b'], none, 3, Status.pending,
              ⟨100, true⟩, ⟨0, true⟩, ⟨7, true⟩⟩]⟩,
          Except.error ValErr.modelConstraint) :=
  ⟨rfl, rfl⟩

/-- C6, amended: for every existing task and every partial update payload
whose supplied fields also satisfy the internal `TaskModel` constraints
when combined with the stored record, `update_task` changes exactly the
supplied fields plus `updated_at` (refreshed to the current time), leaves
every unsupplied field and every other record untouched, persists the
rewritten document and returns the updated record; a supplied field
violating the model constraints is still written and persisted, but the
operation then fails re-validating the updated record instead of returning
it. -/
theorem C6_partial_update (users : List User) (pre post : List TaskModel)
    (t : TaskModel) (p : TaskUpdateInput) (now : PyDateTime)
    (hpre : ∀ v ∈ pre, v.id ≠ t.id)
    (hvalid : taskModelValid (TaskService.applyUpdate t p now) = true) :
    TaskService.update_task ⟨users, pre ++ t :: post⟩ t.id p now
      = some (⟨users, pre ++ TaskService.applyUpdate t p now :: post⟩,
          Except.ok (TaskService.applyUpdate t p now)) ∧
    (p.title = none → (TaskService.applyUpdate t p now).title = t.title) ∧
    (p.description = none →
      (TaskService.applyUpdate t p now).description = t.description) ∧
    (p.priority = none → (TaskService.applyUpdate t p now).priority = t.priority) ∧
    (p.status = none → (TaskService.applyUpdate t p now).status = t.status) ∧
    (p.due_date = none → (TaskService.applyUpdate t p now).due_date = t.due_date) ∧
    (TaskService.applyUpdate t p now).id = t.id ∧
    (TaskService.applyUpdate t p now).user_id = t.user_id ∧
    (TaskService.applyUpdate t p now).created_at = t.created_at ∧
    (TaskService.applyUpdate t p now).updated_at = now ∧
    (∀ s, p.title = some s → (TaskService.applyUpdate t p now).title = s) ∧
    (∀ v, p.description = some v →
      (TaskService.applyUpdate t p now).description = v) ∧
    (∀ n, p.priority = some n → (TaskService.applyUpdate t p now).priority = n) ∧
    (∀ st, p.status = some st → (TaskService.applyUpdate t p now).status = st) ∧
    (∀ dd, p.due_date = some dd → (TaskService.applyUpdate t p now).due_date = dd) := by
  refine ⟨?_, ?_, ?_, ?_, ?_, ?_, rfl, rfl, rfl, rfl, ?_, ?_, ?_, ?_, ?_⟩
  · unfold TaskService.update_task
    rw [updateFirstTask_append t.id p now pre post t rfl hpre]
    simp [hvalid]
  all_goals intro h
  all_goals try (intro hs)
  all_goals simp_all [TaskService.applyUpdate]

/-- C6, witness: the amended theorem applied to the one-task store and a
payload supplying only `status`. -/
theorem C6_partial_update_witness :
    (TaskService.update_task ⟨[bobUser], [] ++ sampleTask :: []⟩ sampleTask.id
        ⟨none, none, none, some Status.done, none⟩ ⟨9, true⟩
      = some (⟨[bobUser],
            [] ++ TaskService.applyUpdate sampleTask
              ⟨none, none, none, some Status.done, none⟩ ⟨9, true⟩ :: []⟩,
          Except.ok (TaskService.applyUpdate sampleTask
            ⟨none, none, none, some Status.done, none⟩ ⟨9, true⟩))) ∧
    ((⟨none, none, none, some Status.done, none⟩ : TaskUpdateInput).title = none →
      (TaskService.applyUpdate sampleTask
        ⟨none, none, none, some Status.done, none⟩ ⟨9, true⟩).title = sampleTask.title) ∧
    ((⟨none, none, none, some Status.done, none⟩ : TaskUpdateInput).description = none →
      (TaskService.applyUpdate sampleTask
        ⟨none, none, none, some Status.done, none⟩ ⟨9, true⟩).description
          = sampleTask.description) ∧
    ((⟨none, none, none, some Status.done, none⟩ : TaskUpdateInput).priority = none →
      (TaskService.applyUpdate sampleTask
        ⟨none, none, none, some Status.done, none⟩ ⟨9, true⟩).priority
          = sampleTask.priority) ∧
    ((⟨none, none, none, some Status.done, none⟩ : TaskUpdateInput).status = none →
      (TaskService.applyUpdate sampleTask
        ⟨none, none, none, some Status.done, none⟩ ⟨9, true⟩).status = sampleTask.status) ∧
    ((⟨none, none, none, some Status.done, none⟩ : TaskUpdateInput).due_date = none →
      (TaskService.applyUpdate sampleTask
        ⟨none, none, none, some Status.done, none⟩ ⟨9, true⟩).due_date
          = sampleTask.due_date) ∧
    (TaskService.applyUpdate sampleTask
      ⟨none, none, none, some Status.done, none⟩ ⟨9, true⟩).id = sampleTask.id ∧
    (TaskService.applyUpdate sampleTask
      ⟨none, none, none, some Status.done, none⟩ ⟨9, true⟩).user_id = sampleTask.user_id ∧
    (TaskService.applyUpdate sampleTask
      ⟨none, none, none, some Status.done, none⟩ ⟨9, true⟩).created_at
        = sampleTask.created_at ∧
    (TaskService.applyUpdate sampleTask
      ⟨none, none, none, some Status.done, none⟩ ⟨9, true⟩).updated_at = ⟨9, true⟩ ∧
    (∀ s, (⟨none, none, none, some Status.done, none⟩ : TaskUpdateInput).title = some s →
      (TaskService.applyUpdate sampleTask
        ⟨none, none, none, some Status.done, none⟩ ⟨9, true⟩).title = s) ∧
    (∀ v, (⟨none, none, none, some Status.done, none⟩ : TaskUpdateInput).description
        = some v →
      (TaskService.applyUpdate sampleTask
        ⟨none, none, none, some Status.done, none⟩ ⟨9, true⟩).description = v) ∧
    (∀ n, (⟨none, none, none, some Status.done, none⟩ : TaskUpdateInput).priority = some n →
      (TaskService.applyUpdate sampleTask
        ⟨none, none, none, some Status.done, none⟩ ⟨9, true⟩).priority = n) ∧
    (∀ st, (⟨none, none, none, some Status.done, none⟩ : TaskUpdateInput).status = some st →
      (TaskService.applyUpdate sampleTask
        ⟨none, none, none, some Status.done, none⟩ ⟨9, true⟩).status = st) ∧
    (∀ dd, (⟨none, none, none, some Status.done, none⟩ : TaskUpdateInput).due_date = some dd →
      (TaskService.applyUpdate sampleTask
        ⟨none, none, none, some Status.done, none⟩ ⟨9, true⟩).due_date = dd) :=
  C6_partial_update [bobUser] [] [] sampleTask
    ⟨none, none, none, some Status.done, none⟩ ⟨9, true⟩ (by simp) (by decide)

/-- A persisted task record violating the `TaskModel` title bound — exactly
the record a model-violating update leaves in the store, since `_save_data`
runs before `Task(**task)` re-validates. -/
def badTitleTask : TaskModel :=
  ⟨10, 1, ['a', 'b'], none, 3, Status.pending, ⟨100, true⟩, ⟨0, true⟩, ⟨7, true⟩⟩

/-- A document holding `badTitleTask`: the store produced by updating
`oneTaskDoc`'s task with the schema-valid payload title `" ab "`. -/
def corruptedDoc : StoreDoc := ⟨[bobUser], [badTitleTask]⟩

/-- C10, counterexample: the service itself can persist a task whose title
violates the internal `TaskModel` bound (first conjunct: the schema-valid
payload `" ab "` is written and persisted before `Task(**task)` raises).
For that existing task, the empty-payload update is an error: it still
rewrites the store with `updated_at` refreshed (second conjunct's document),
but raises re-validating `Task(**task)` instead of succeeding, refuting
"is not an error: it succeeds". -/
theorem C10_counterexample :
    TaskService.update_task oneTaskDoc 10
        ⟨some ['a', 'b'], none, none, none, none⟩ ⟨7, true⟩
      = some (corruptedDoc, Except.error ValErr.modelConstraint) ∧
    TaskService.update_task corruptedDoc 10
        ⟨none, none, none, none, none⟩ ⟨12, true⟩
      = some (⟨[bobUser],
            [⟨10, 1, ['a', 'b'], none, 3, Status.pending,
              ⟨100, true⟩, ⟨0, true⟩, ⟨12, true⟩⟩]⟩,
          Except.error ValErr.modelConstraint) :=
  ⟨rfl, rfl⟩

/-- C10, amended: for every existing task, the empty-payload update always
refreshes `updated_at` to the current time, leaves every other field of
every record unchanged, and rewrites the stored document; it succeeds and
returns the refreshed record exactly when the stored record itself passes
the internal `TaskModel` re-validation — for a persisted record violating
those constraints the rewrite still happens, but the operation raises at
`Task(**task)` instead of returning a record. -/
theorem C10_empty_update_rewrite (users : List User) (pre post : List TaskModel)
    (t : TaskModel) (now : PyDateTime)
    (hpre : ∀ v ∈ pre, v.id ≠ t.id) :
    TaskService.update_task ⟨users, pre ++ t :: post⟩ t.id
        ⟨none, none, none, none, none⟩ now
      = some (⟨users, pre ++ { t with updated_at := now } :: post⟩,
          if taskModelValid t then Except.ok { t with updated_at := now }
          else Except.error ValErr.modelConstraint) := by
  have happ : TaskService.applyUpdate t ⟨none, none, none, none, none⟩ now
      = { t with updated_at := now } := rfl
  have hval : taskModelValid ({ t with updated_at := now } : TaskModel)
      = taskModelValid t := rfl
  unfold TaskService.update_task
  rw [updateFirstTask_append t.id ⟨none, none, none, none, none⟩ now pre post t rfl hpre]
  simp [happ, hval]

/-- C10, witness: the empty-payload update applied to the one-task store
(the re-validation succeeds there, so the refreshed record is returned). -/
theorem C10_empty_update_rewrite_witness :
    TaskService.update_task ⟨[bobUser], [] ++ sampleTask :: []⟩ sampleTask.id
        ⟨none, none, none, none, none⟩ ⟨11, true⟩
      = some (⟨[bobUser], [] ++ { sampleTask with updated_at := ⟨11, true⟩ } :: []⟩,
          if taskModelValid sampleTask
          then Except.ok { sampleTask with updated_at := ⟨11, true⟩ }
          else Except.error ValErr.modelConstraint) :=
  C10_empty_update_rewrite [bobUser] [] [] sampleTask ⟨11, true⟩ (by simp)

/-! ## JSON serialisation layer (C9)

`_save_data` serialises the whole document with `json.dump(..., default=str)`
and the next `_load_data` re-parses it. The embedding works at the JSON AST
level: scalars keep their values (the textual rendering of numbers, ids and
timestamps is abstracted), objects are key/value lists, and the decoder is
the shape of document that `json.load` hands back to the services. -/

/-- JSON abstract syntax tree. -/
inductive Json where
  | null
  | jbool (b : Bool)
  | jnum (n : Int)
  | jstr (s : Str)
  | jarr (xs : List Json)
  | jobj (kvs : List (Str × Json))
  deriving Repr

/-- First-match key lookup in a JSON object, as a Python dict read. -/
def jlookup (kvs : List (Str × Json)) (k : Str) : Option Json :=
  (kvs.find? (fun kv => kv.1 == k)).map (fun kv => kv.2)

/-- Serialisation of a `datetime` (rendered by `default=str` in the code;
instant and awareness kept at the AST level). -/
def encodeDate (t : PyDateTime) : Json := .jarr [.jnum t.ts, .jbool t.aware]

/-- Re-parse of a serialised `datetime`. -/
def decodeDate : Json → Option PyDateTime
  | .jarr [.jnum n, .jbool b] => some ⟨n, b⟩
  | _ => none

/-- Serialisation of a `status` literal. -/
def encodeStatus : Status → Json
  | .pending => .jstr "pending".toList
  | .in_progress => .jstr "in_progress".toList
  | .done => .jstr "done".toList

/-- Re-parse of a `status` literal. -/
def decodeStatus : Json → Option Status
  | .jstr s =>
    if s = "pending".toList then some .pending
    else if s = "in_progress".toList then some .in_progress
    else if s = "done".toList then some .done
    else none
  | _ => none

/-- Serialisation of a nullable string (`description`). -/
def encodeOptStr : Option Str → Json
  | none => .null
  | some s => .jstr s

/-- Re-parse of a nullable string. -/
def decodeOptStr : Json → Option (Option Str)
  | .null => some none
  | .jstr s => some (some s)
  | _ => none

/-- Serialisation of one stored user record. -/
def encodeUser (u : User) : Json :=
  .jobj [("id".toList, .jnum (.ofNat u.id)),
    ("name".toList, .jstr u.name),
    ("email".toList, .jstr u.email),
    ("created_at".toList, encodeDate u.created_at)]

/-- Re-parse of one stored user record. -/
def decodeUser (j : Json) : Option User :=
  match j with
  | .jobj kvs =>
    match jlookup kvs "id".toList, jlookup kvs "name".toList,
        jlookup kvs "email".toList, jlookup kvs "created_at".toList with
    | some (.jnum (.ofNat i)), some (.jstr n), some (.jstr e), some cj =>
      match decodeDate cj with
      | some c => some ⟨i, n, e, c⟩
      | none => none
    | _, _, _, _ => none
  | _ => none

/-- Serialisation of one stored task record. -/
def encodeTask (t : TaskModel) : Json :=
  .jobj [("id".toList, .jnum (.ofNat t.id)),
    ("user_id".toList, .jnum (.ofNat t.user_id)),
    ("title".toList, .jstr t.title),
    ("description".toList, encodeOptStr t.description),
    ("priority".toList, .jnum (.ofNat t.priority)),
    ("status".toList, encodeStatus t.status),
    ("due_date".toList, encodeDate t.due_date),
    ("created_at".toList, encodeDate t.created_at),
    ("updated_at".toList, encodeDate t.updated_at)]

/-- Re-parse of one stored task record. -/
def decodeTask (j : Json) : Option TaskModel :=
  match j with
  | .jobj kvs =>
    match jlookup kvs "id".toList, jlookup kvs "user_id".toList,
        jlookup kvs "title".toList, jlookup kvs "description".toList,
        jlookup kvs "priority".toList, jlookup kvs "status".toList with
    | some (.jnum (.ofNat i)), some (.jnum (.ofNat ui)), some (.jstr ti),
        some dj, some (.jnum (.ofNat pr)), some sj =>
      match decodeOptStr dj, decodeStatus sj,
          (jlookup kvs "due_date".toList).bind decodeDate,
          (jlookup kvs "created_at".toList).bind decodeDate,
          (jlookup kvs "updated_at".toList).bind decodeDate with
      | some de, some st, some dd, some ca, some ua =>
        some ⟨i, ui, ti, de, pr, st, dd, ca, ua⟩
      | _, _, _, _, _ => none
    | _, _, _, _, _, _ => none
  | _ => none

/-- Serialisation of the whole document, as `_save_data` writes it. -/
def encodeDoc (d : StoreDoc) : Json :=
  .jobj [("users".toList, .jarr (d.users.map encodeUser)),
    ("tasks".toList, .jarr (d.tasks.map encodeTask))]

/-- Re-parse of the whole document, as `_load_data` reads it back. -/
def decodeDoc (j : Json) : Option StoreDoc :=
  match j with
  | .jobj kvs =>
    match jlookup kvs "users".toList, jlookup kvs "tasks".toList with
    | some (.jarr uj), some (.jarr tj) =>
      match uj.mapM decodeUser, tj.mapM decodeTask with
      | some us, some ts => some ⟨us, ts⟩
      | _, _ => none
    | _, _ => none
  | _ => none

/-- Every user record survives serialise-then-reparse. -/
theorem decodeUser_encodeUser (u : User) : decodeUser (encodeUser u) = some u := by
  cases u with
  | mk i n e c => cases c with | mk ts aw => rfl

/-- Every task record survives serialise-then-reparse. -/
theorem decodeTask_encodeTask (t : TaskModel) : decodeTask (encodeTask t) = some t := by
  cases t with
  | mk i ui ti de pr st dd ca ua =>
    cases dd with
    | mk dts daw =>
      cases ca with
      | mk cts caw =>
        cases ua with
        | mk uts uaw =>
          cases de <;> cases st <;> rfl

/-- Lists of records survive serialise-then-reparse element-wise. -/
theorem mapM_decode_encode {α : Type} (enc : α → Json) (dec : Json → Option α)
    (h : ∀ a, dec (enc a) = some a) (l : List α) :
    (l.map enc).mapM dec = some l := by
  induction l with
  | nil => rfl
  | cons a as ih =>
    rw [List.map_cons, List.mapM_cons, h, ih]
    rfl

/-- The whole document survives serialise-then-reparse. -/
theorem decodeDoc_encodeDoc (d : StoreDoc) : decodeDoc (encodeDoc d) = some d := by
  have hu := mapM_decode_encode encodeUser decodeUser decodeUser_encodeUser d.users
  have ht := mapM_decode_encode encodeTask decodeTask decodeTask_encodeTask d.tasks
  show (match (d.users.map encodeUser).mapM decodeUser,
      (d.tasks.map encodeTask).mapM decodeTask with
    | some us, some ts => some (⟨us, ts⟩ : StoreDoc)
    | _, _ => none) = some d
  rw [hu, ht]

/-! ## Creation sequences and the round-trip property (C9) -/

/-- The priority a creation stores: the supplied literal, or the schema
default 3 when absent. -/
def defaultPriority : Option Int → Nat
  | none => 3
  | some m => m.toNat

/-- The normalized status value for a raw string that `parse_status`
accepts. -/
def normalizeStatus (s : Str) : Status :=
  if s = "pending".toList then .pending
  else if s = "in_progress".toList then .in_progress
  else .done

/-- The user record that a successful creation from the raw input stores:
trimmed name, trimmed lower-cased email, generated id and timestamp. -/
def normalizedUser (r : RawUserInput) (uid : Nat) (now : PyDateTime) : User :=
  ⟨uid, pyStrip r.name, pyLower (pyStrip r.email), now⟩

/-- The task record that a successful creation from the raw input stores:
trimmed title, trimmed description with empty normalized to absent,
defaulted priority, parsed status, UTC-interpreted due date, generated id
and timestamps. -/
def normalizedTask (r : RawTaskInput) (tid : Nat) (now : PyDateTime) : TaskModel :=
  ⟨tid, r.user_id, pyStrip r.title,
    TaskCreateInput.validate_description r.description,
    defaultPriority r.priority,
    normalizeStatus r.status, r.due_date.asUtc, now, now⟩

/-- A successful `validate_name` returns the trimmed raw name. -/
theorem validate_name_ok (v s : Str) (h : UserCreateInput.validate_name v = Except.ok s) :
    s = pyStrip v := by
  unfold UserCreateInput.validate_name at h
  split_ifs at h <;> simp_all

/-- A successful `validate_email` returns the trimmed lower-cased raw
email. -/
theorem validate_email_ok (v s : Str) (h : UserCreateInput.validate_email v = Except.ok s) :
    s = pyLower (pyStrip v) := by
  unfold UserCreateInput.validate_email at h
  split_ifs at h <;> simp_all

/-- A successful user-schema validation yields exactly the normalized
fields. -/
theorem user_validate_ok (r : RawUserInput) (inp : UserCreateInput)
    (h : UserCreateInput.validate r = Except.ok inp) :
    inp = ⟨pyStrip r.name, pyLower (pyStrip r.email)⟩ := by
  unfold UserCreateInput.validate at h
  cases h1 : UserCreateInput.validate_name r.name with
  | error e => rw [h1] at h; exact absurd h (by simp)
  | ok n =>
    rw [h1] at h
    cases h2 : UserCreateInput.validate_email r.email with
    | error e => rw [h2] at h; exact absurd h (by simp)
    | ok em =>
      rw [h2] at h
      simp only [Except.ok.injEq] at h
      rw [← h, validate_name_ok r.name n h1, validate_email_ok r.email em h2]

/-- A successful `validate_title` returns the trimmed raw title. -/
theorem validate_title_ok (v s : Str) (h : TaskCreateInput.validate_title v = Except.ok s) :
    s = pyStrip v := by
  unfold TaskCreateInput.validate_title at h
  split_ifs at h <;> simp_all

/-- A successful `validate_priority` returns the supplied literal or the
default 3. -/
theorem validate_priority_ok (p : Option Int) (n : Nat)
    (h : TaskCreateInput.validate_priority p = Except.ok n) :
    n = defaultPriority p := by
  cases p with
  | none =>
    simp only [TaskCreateInput.validate_priority, Except.ok.injEq] at h
    simp [defaultPriority, ← h]
  | some m =>
    simp only [TaskCreateInput.validate_priority] at h
    split_ifs at h <;> simp_all [defaultPriority]

/-- A successful `parse_status` returns the normalized status. -/
theorem parse_status_ok (s : Str) (st : Status)
    (h : TaskCreateInput.parse_status s = Except.ok st) :
    st = normalizeStatus s := by
  unfold TaskCreateInput.parse_status at h
  unfold normalizeStatus
  split_ifs at h <;> simp_all [normalizeStatus]

/-- A successful due-date validation returns the UTC-interpreted value. -/
theorem validate_due_ok (nowts : Int) (t u : PyDateTime)
    (h : TaskCreateInput.validate_due_date_is_future nowts t = Except.ok u) :
    u = t.asUtc := by
  unfold TaskCreateInput.validate_due_date_is_future at h
  split_ifs at h <;> simp_all

/-- A successful task-schema validation yields exactly the normalized
fields. -/
theorem task_validate_ok (nowts : Int) (r : RawTaskInput) (inp : TaskCreateInput)
    (h : TaskCreateInput.validate nowts r = Except.ok inp) :
    inp = ⟨r.user_id, pyStrip r.title,
      TaskCreateInput.validate_description r.description,
      defaultPriority r.priority,
      normalizeStatus r.status, r.due_date.asUtc⟩ := by
  unfold TaskCreateInput.validate at h
  cases h1 : TaskCreateInput.validate_title r.title with
  | error e => rw [h1] at h; exact absurd h (by simp)
  | ok ti =>
    rw [h1] at h
    cases h2 : TaskCreateInput.validate_priority r.priority with
    | error e => rw [h2] at h; exact absurd h (by simp)
    | ok pr =>
      rw [h2] at h
      cases h3 : TaskCreateInput.parse_status r.status with
      | error e => rw [h3] at h; exact absurd h (by simp)
      | ok st =>
        rw [h3] at h
        cases h4 : TaskCreateInput.validate_due_date_is_future nowts r.due_date with
        | error e => rw [h4] at h; exact absurd h (by simp)
        | ok dd =>
          rw [h4] at h
          simp only [Except.ok.injEq] at h
          rw [← h, validate_title_ok r.title ti h1,
            validate_priority_ok r.priority pr h2,
            parse_status_ok r.status st h3,
            validate_due_ok nowts r.due_date dd h4]

/-- A successful `create_user` appends exactly the constructed record, which
passed the `User` model's re-validation. -/
theorem create_user_ok (d d2 : StoreDoc) (inp : UserCreateInput) (uid : Nat)
    (now : PyDateTime) (u : User)
    (h : UserService.create_user d inp uid now = Except.ok (u, d2)) :
    u = ⟨uid, inp.name, inp.email, now⟩ ∧
    d2 = ⟨d.users ++ [u], d.tasks⟩ ∧ userModelValid u = true := by
  unfold UserService.create_user at h
  split_ifs at h with h1 h2
  simp only [Except.ok.injEq, Prod.mk.injEq] at h
  refine ⟨h.1.symm, ?_, ?_⟩
  · rw [← h.2, h.1]
  · rw [← h.1]
    exact h2

/-- A successful `create_task` appends exactly the constructed record, which
passed the `TaskModel` re-validation. -/
theorem create_task_ok (d d2 : StoreDoc) (inp : TaskCreateInput) (tid : Nat)
    (now : PyDateTime) (t : TaskModel)
    (h : TaskService.create_task d inp tid now = Except.ok (t, d2)) :
    t = ⟨tid, inp.user_id, inp.title, inp.description, inp.priority,
      inp.status, inp.due_date, now, now⟩ ∧
    d2 = ⟨d.users, d.tasks ++ [t]⟩ ∧ taskModelValid t = true := by
  unfold TaskService.create_task at h
  split_ifs at h with h1 h2
  simp only [Except.ok.injEq, Prod.mk.injEq] at h
  refine ⟨h.1.symm, ?_, ?_⟩
  · rw [← h.2, h.1]
  · rw [← h.1]
    exact h2

/-- One creation request: a raw payload plus the id and timestamp the
server generates for it (`uuid4()`, `datetime.now(utc)`). -/
inductive CreateOp where
  | userOp (r : RawUserInput) (uid : Nat) (now : PyDateTime)
  | taskOp (r : RawTaskInput) (tid : Nat) (now : PyDateTime)
  deriving Repr

/-- One full creation round trip through the API: schema validation of the
raw payload, then the service's create; `none` when any stage rejects. -/
def runOp (d : StoreDoc) : CreateOp → Option StoreDoc
  | .userOp r uid now =>
    match UserCreateInput.validate r with
    | .error _ => none
    | .ok inp =>
      match UserService.create_user d inp uid now with
      | .error _ => none
      | .ok (_, d2) => some d2
  | .taskOp r tid now =>
    match TaskCreateInput.validate now.ts r with
    | .error _ => none
    | .ok inp =>
      match TaskService.create_task d inp tid now with
      | .error _ => none
      | .ok (_, d2) => some d2

/-- A sequence of creation requests, each persisting before the next
loads. -/
def runOps (d : StoreDoc) : List CreateOp → Option StoreDoc
  | [] => some d
  | op :: ops =>
    match runOp d op with
    | none => none
    | some d2 => runOps d2 ops

/-- The user record a successful creation op stores. -/
def expectedUserRec : CreateOp → Option User
  | .userOp r uid now => some (normalizedUser r uid now)
  | .taskOp _ _ _ => none

/-- The task record a successful creation op stores. -/
def expectedTaskRec : CreateOp → Option TaskModel
  | .userOp _ _ _ => none
  | .taskOp r tid now => some (normalizedTask r tid now)

/-- Document validity: every stored record passes its model's
re-validation, as every record written by a successful creation does. -/
def docValid (d : StoreDoc) : Bool :=
  d.users.all userModelValid && d.tasks.all taskModelValid

/-- A successful user-creation op appends exactly the normalized record and
touches nothing else. -/
theorem runOp_user (d d2 : StoreDoc) (r : RawUserInput) (uid : Nat) (now : PyDateTime)
    (h : runOp d (.userOp r uid now) = some d2) :
    d2.users = d.users ++ [normalizedUser r uid now] ∧ d2.tasks = d.tasks ∧
    userModelValid (normalizedUser r uid now) = true := by
  simp only [runOp] at h
  cases h1 : UserCreateInput.validate r with
  | error e => rw [h1] at h; dsimp only at h; exact absurd h (by simp)
  | ok inp =>
    rw [h1] at h
    dsimp only at h
    cases h2 : UserService.create_user d inp uid now with
    | error e => rw [h2] at h; dsimp only at h; exact absurd h (by simp)
    | ok p =>
      rw [h2] at h
      dsimp only at h
      simp only [Option.some.injEq] at h
      obtain ⟨hu, hd, hv⟩ := create_user_ok d p.2 inp uid now p.1
        (by rw [h2])
      have hnorm : p.1 = normalizedUser r uid now := by
        rw [hu, user_validate_ok r inp h1]
        rfl
      subst h
      refine ⟨?_, ?_, ?_⟩
      · rw [hd, ← hnorm]
      · rw [hd]
      · rw [← hnorm]
        exact hv

/-- A successful task-creation op appends exactly the normalized record and
touches nothing else. -/
theorem runOp_task (d d2 : StoreDoc) (r : RawTaskInput) (tid : Nat) (now : PyDateTime)
    (h : runOp d (.taskOp r tid now) = some d2) :
    d2.tasks = d.tasks ++ [normalizedTask r tid now] ∧ d2.users = d.users ∧
    taskModelValid (normalizedTask r tid now) = true := by
  simp only [runOp] at h
  cases h1 : TaskCreateInput.validate now.ts r with
  | error e => rw [h1] at h; dsimp only at h; exact absurd h (by simp)
  | ok inp =>
    rw [h1] at h
    dsimp only at h
    cases h2 : TaskService.create_task d inp tid now with
    | error e => rw [h2] at h; dsimp only at h; exact absurd h (by simp)
    | ok p =>
      rw [h2] at h
      dsimp only at h
      simp only [Option.some.injEq] at h
      obtain ⟨ht, hd, hv⟩ := create_task_ok d p.2 inp tid now p.1
        (by rw [h2])
      have hnorm : p.1 = normalizedTask r tid now := by
        rw [ht, task_validate_ok now.ts r inp h1]
        rfl
      subst h
      refine ⟨?_, ?_, ?_⟩
      · rw [hd, ← hnorm]
      · rw [hd]
      · rw [← hnorm]
        exact hv

/-- Folding a sequence of successful creations appends exactly the
normalized records, in order, to each collection, and preserves document
validity. -/
theorem runOps_spec (ops : List CreateOp) (d0 d : StoreDoc)
    (h : runOps d0 ops = some d) :
    d.users = d0.users ++ ops.filterMap expectedUserRec ∧
    d.tasks = d0.tasks ++ ops.filterMap expectedTaskRec ∧
    (docValid d0 = true → docValid d = true) := by
  induction ops generalizing d0 with
  | nil =>
    simp only [runOps, Option.some.injEq] at h
    subst h
    simp
  | cons op ops ih =>
    simp only [runOps] at h
    cases hop : runOp d0 op with
    | none => rw [hop] at h; exact absurd h (by simp)
    | some d1 =>
      rw [hop] at h
      dsimp only at h
      obtain ⟨hu, ht, hv⟩ := ih d1 h
      cases op with
      | userOp r uid now =>
        obtain ⟨h1, h2, h3⟩ := runOp_user d0 d1 r uid now hop
        refine ⟨?_, ?_, ?_⟩
        · rw [hu, h1]
          simp [expectedUserRec]
        · rw [ht, h2]
          simp [expectedTaskRec]
        · intro hd0
          apply hv
          unfold docValid at hd0 ⊢
          rw [h1, h2]
          simp only [List.all_append, List.all_cons, List.all_nil,
            Bool.and_true, Bool.and_eq_true] at hd0 ⊢
          exact ⟨⟨hd0.1, h3⟩, hd0.2⟩
      | taskOp r tid now =>
        obtain ⟨h1, h2, h3⟩ := runOp_task d0 d1 r tid now hop
        refine ⟨?_, ?_, ?_⟩
        · rw [hu, h2]
          simp [expectedUserRec]
        · rw [ht, h1]
          simp [expectedTaskRec]
        · intro hd0
          apply hv
          unfold docValid at hd0 ⊢
          rw [h1, h2]
          simp only [List.all_append, List.all_cons, List.all_nil,
            Bool.and_true, Bool.and_eq_true] at hd0 ⊢
          exact ⟨hd0.1, hd0.2, h3⟩

/-- Each creation op stores exactly one record, in exactly one of the two
collections. -/
theorem filterMap_ops_length (ops : List CreateOp) :
    (ops.filterMap expectedUserRec).length + (ops.filterMap expectedTaskRec).length
      = ops.length := by
  induction ops with
  | nil => rfl
  | cons op ops ih =>
    cases op <;> simp [List.filterMap_cons, expectedUserRec, expectedTaskRec] <;> omega

/-- Re-validation on load succeeds on a list of model-valid user records. -/
theorem users_mapM_ok (l : List User) (h : l.all userModelValid = true) :
    l.mapM (fun u => if userModelValid u then Except.ok u
      else Except.error ValErr.modelConstraint) = Except.ok l := by
  induction l with
  | nil => rfl
  | cons u us ih =>
    simp only [List.all_cons, Bool.and_eq_true] at h
    rw [List.mapM_cons, ih h.2]
    simp [h.1]
    rfl

/-- Re-validation on load succeeds on a list of model-valid task records. -/
theorem tasks_mapM_ok (l : List TaskModel) (h : l.all taskModelValid = true) :
    l.mapM (fun t => if taskModelValid t then Except.ok t
      else Except.error ValErr.modelConstraint) = Except.ok l := by
  induction l with
  | nil => rfl
  | cons t ts ih =>
    simp only [List.all_cons, Bool.and_eq_true] at h
    rw [List.mapM_cons, ih h.2]
    simp [h.1]
    rfl

/-- C9, confirmed: after any sequence of successful creations starting from
the empty document, each collection holds exactly the created records in
insertion order — their field values being the normalized raw inputs
(trimmed name/title/description, lower-cased trimmed email, defaulted
priority, UTC-interpreted due date) — one stored record per creation;
`list()` re-validates and returns exactly those records; and the document
survives the serialise-to-JSON-and-reparse round trip unchanged. -/
theorem C9_create_list_round_trip (ops : List CreateOp) (d : StoreDoc)
    (h : runOps emptyDoc ops = some d) :
    d.users = ops.filterMap expectedUserRec ∧
    d.tasks = ops.filterMap expectedTaskRec ∧
    d.users.length + d.tasks.length = ops.length ∧
    UserService.get_all_users d = Except.ok d.users ∧
    TaskService.get_all_tasks d = Except.ok d.tasks ∧
    decodeDoc (encodeDoc d) = some d := by
  obtain ⟨hu, ht, hv⟩ := runOps_spec ops emptyDoc d h
  have hval : docValid d = true := hv rfl
  unfold docValid at hval
  simp only [Bool.and_eq_true] at hval
  simp only [emptyDoc, List.nil_append] at hu ht
  refine ⟨hu, ht, ?_, ?_, ?_, decodeDoc_encodeDoc d⟩
  · rw [hu, ht, filterMap_ops_length]
  · unfold UserService.get_all_users
    exact users_mapM_ok d.users hval.1
  · unfold TaskService.get_all_tasks
    exact tasks_mapM_ok d.tasks hval.2

/-- C9, witness: a concrete sequence — create the user `" Ann "` /
`"ANN@X.COM"`, then a task for her — evaluated through the whole pipeline. -/
theorem C9_create_list_round_trip_witness :
    (⟨[⟨1, ['A', 'n', 'n'], ['a', 'n', 'n', '@', 'x', '.', 'c', 'o', 'm'], ⟨0, true⟩⟩],
        [⟨2, 1, ['f', 'i', 'x'], none, 2, Status.pending, ⟨100, true⟩, ⟨1, true⟩, ⟨1, true⟩⟩]⟩
        : StoreDoc).users
      = ([CreateOp.userOp ⟨[' ', 'A', 'n', 'n', ' '], ['A', 'N', 'N', '@', 'X', '.', 'C', 'O', 'M']⟩
            1 ⟨0, true⟩,
          CreateOp.taskOp ⟨1, ['f', 'i', 'x'], none, some 2,
            ['p', 'e', 'n', 'd', 'i', 'n', 'g'], ⟨100, false⟩⟩ 2 ⟨1, true⟩]).filterMap
          expectedUserRec ∧
    (⟨[⟨1, ['A', 'n', 'n'], ['a', 'n', 'n', '@', 'x', '.', 'c', 'o', 'm'], ⟨0, true⟩⟩],
        [⟨2, 1, ['f', 'i', 'x'], none, 2, Status.pending, ⟨100, true⟩, ⟨1, true⟩, ⟨1, true⟩⟩]⟩
        : StoreDoc).tasks
      = ([CreateOp.userOp ⟨[' ', 'A', 'n', 'n', ' '], ['A', 'N', 'N', '@', 'X', '.', 'C', 'O', 'M']⟩
            1 ⟨0, true⟩,
          CreateOp.taskOp ⟨1, ['f', 'i', 'x'], none, some 2,
            ['p', 'e', 'n', 'd', 'i', 'n', 'g'], ⟨100, false⟩⟩ 2 ⟨1, true⟩]).filterMap
          expectedTaskRec ∧
    (⟨[⟨1, ['A', 'n', 'n'], ['a', 'n', 'n', '@', 'x', '.', 'c', 'o', 'm'], ⟨0, true⟩⟩],
        [⟨2, 1, ['f', 'i', 'x'], none, 2, Status.pending, ⟨100, true⟩, ⟨1, true⟩, ⟨1, true⟩⟩]⟩
        : StoreDoc).users.length
      + (⟨[⟨1, ['A', 'n', 'n'], ['a', 'n', 'n', '@', 'x', '.', 'c', 'o', 'm'], ⟨0, true⟩⟩],
          [⟨2, 1, ['f', 'i', 'x'], none, 2, Status.pending, ⟨100, true⟩, ⟨1, true⟩, ⟨1, true⟩⟩]⟩
          : StoreDoc).tasks.length
      = ([CreateOp.userOp ⟨[' ', 'A', 'n', 'n', ' '], ['A', 'N', 'N', '@', 'X', '.', 'C', 'O', 'M']⟩
            1 ⟨0, true⟩,
          CreateOp.taskOp ⟨1, ['f', 'i', 'x'], none, some 2,
            ['p', 'e', 'n', 'd', 'i', 'n', 'g'], ⟨100, false⟩⟩ 2 ⟨1, true⟩]).length ∧
    UserService.get_all_users
        ⟨[⟨1, ['A', 'n', 'n'], ['a', 'n', 'n', '@', 'x', '.', 'c', 'o', 'm'], ⟨0, true⟩⟩],
          [⟨2, 1, ['f', 'i', 'x'], none, 2, Status.pending, ⟨100, true⟩, ⟨1, true⟩, ⟨1, true⟩⟩]⟩
      = Except.ok [⟨1, ['A', 'n', 'n'], ['a', 'n', 'n', '@', 'x', '.', 'c', 'o', 'm'], ⟨0, true⟩⟩] ∧
    TaskService.get_all_tasks
        ⟨[⟨1, ['A', 'n', 'n'], ['a', 'n', 'n', '@', 'x', '.', 'c', 'o', 'm'], ⟨0, true⟩⟩],
          [⟨2, 1, ['f', 'i', 'x'], none, 2, Status.pending, ⟨100, true⟩, ⟨1, true⟩, ⟨1, true⟩⟩]⟩
      = Except.ok [⟨2, 1, ['f', 'i', 'x'], none, 2, Status.pending, ⟨100, true⟩, ⟨1, true⟩, ⟨1, true⟩⟩] ∧
    decodeDoc (encodeDoc
        ⟨[⟨1, ['A', 'n', 'n'], ['a', 'n', 'n', '@', 'x', '.', 'c', 'o', 'm'], ⟨0, true⟩⟩],
          [⟨2, 1, ['f', 'i', 'x'], none, 2, Status.pending, ⟨100, true⟩, ⟨1, true⟩, ⟨1, true⟩⟩]⟩)
      = some ⟨[⟨1, ['A', 'n', 'n'], ['a', 'n', 'n', '@', 'x', '.', 'c', 'o', 'm'], ⟨0, true⟩⟩],
          [⟨2, 1, ['f', 'i', 'x'], none, 2, Status.pending, ⟨100, true⟩, ⟨1, true⟩, ⟨1, true⟩⟩]⟩ :=
  C9_create_list_round_trip
    [CreateOp.userOp ⟨[' ', 'A', 'n', 'n', ' '], ['A', 'N', 'N', '@', 'X', '.', 'C', 'O', 'M']⟩
        1 ⟨0, true⟩,
      CreateOp.taskOp ⟨1, ['f', 'i', 'x'], none, some 2,
        ['p', 'e', 'n', 'd', 'i', 'n', 'g'], ⟨100, false⟩⟩ 2 ⟨1, true⟩]
    ⟨[⟨1, ['A', 'n', 'n'], ['a', 'n', 'n', '@', 'x', '.', 'c', 'o', 'm'], ⟨0, true⟩⟩],
      [⟨2, 1, ['f', 'i', 'x'], none, 2, Status.pending, ⟨100, true⟩, ⟨1, true⟩, ⟨1, true⟩⟩]⟩
    (by rfl)
